import Mathlib

/-!
Shallow embedding of `code-coverage-report-action` (src/main.ts, src/interfaces.ts).

Coverage percentages are modelled as rationals (`ℚ`).  JavaScript `null` /
`undefined` is modelled with `Option`; JavaScript truthiness tests on numeric
values (`x ? a : b` where `x : number | null`) are modelled explicitly: `none`
and `some 0` are falsy, every other value is truthy.  Helper functions that
live in the repository's `./utils` module (not present in the sources) are
modelled from the spec and marked as such in their doc comments.
-/

namespace CovAction

/-- Mirrors `interfaces.ts` `CoverageFile`. -/
structure CoverageFile where
  relative : String
  absolute : String
  coverage : ℚ
deriving DecidableEq, Repr

/-- Mirrors `interfaces.ts` `Files`: a keyed mapping from the stable file
identity hash to a `CoverageFile`, with insertion order preserved
(modelled as an association list). -/
abbrev Files := List (String × CoverageFile)

/-- Mirrors `interfaces.ts` `Coverage`. -/
structure Coverage where
  files : Files
  coverage : ℚ
  timestamp : ℕ
  basePath : String
deriving DecidableEq, Repr

/-- Mirrors `interfaces.ts` `Inputs` (the configuration surface returned by
`getInputs()`). -/
structure Inputs where
  token : String
  filename : String
  badge : Bool
  overallCoverageFailThreshold : ℚ
  fileCoverageErrorMin : ℚ
  fileCoverageWarningMax : ℚ
  failOnNegativeDifference : Bool
  markdownFilename : String
  artifactDownloadWorkflowNames : Option (List String)
  artifactName : String
  reportOverallCoverage : Bool
  reportPackageCoverage : Bool
  failOnNegativeOverallDifference : Bool
deriving DecidableEq, Repr

/-- JavaScript truthiness of a `number | null` value: `null` and `0` are
falsy, everything else is truthy. -/
def jsTruthyNum (x : Option ℚ) : Bool :=
  match x with
  | none => false
  | some q => q != 0

/-- Modelled from the spec (section 4.1): rounding "uses standard
round-half-away-from-zero"; the underlying integer rounding. -/
def roundHalfAwayFromZero (q : ℚ) : ℤ :=
  if q < 0 then -⌊-q + 1/2⌋ else ⌊q + 1/2⌋

/-- Modelled from the spec: `roundPercentage` (from the missing `./utils`
module) rounds a percentage to 2 decimal places, half away from zero. -/
def roundPercentage (q : ℚ) : ℚ :=
  (roundHalfAwayFromZero (q * 100) : ℚ) / 100

/-- Qualitative tier of a coverage percentage (spec section 4.1). -/
inductive Tier where
  | ok
  | warning
  | error
  | neutral
deriving DecidableEq, Repr

/-- Modelled from the spec (section 4.1): the threshold classifier from the
missing `./utils` module.  `null` ↦ Neutral; `value < errorCeiling` ↦ Error;
else `value < warningCeiling` ↦ Warning; else Ok. -/
def classify (value : Option ℚ) (warningCeiling errorCeiling : ℚ) : Tier :=
  match value with
  | none => Tier.neutral
  | some v =>
    if v < errorCeiling then Tier.error
    else if v < warningCeiling then Tier.warning
    else Tier.ok

/-- Modelled from the spec: the companion mapping from tier to presentation
color (Ok→green, Warning→yellow, Error→red, Neutral→gray). -/
def tierColor : Tier → String
  | Tier.ok => "green"
  | Tier.warning => "yellow"
  | Tier.error => "red"
  | Tier.neutral => "gray"

/-- A rendered table cell: the displayed value together with its tier.
Modelled from the spec: `colorizePercentageByThreshold` (missing `./utils`)
renders a value with its classification. -/
structure Cell where
  value : Option ℚ
  tier : Tier
deriving DecidableEq, Repr

/-- Modelled from the spec: `colorizePercentageByThreshold` from the missing
`./utils` module.  Optional ceilings default to warning = 80, error = 50 when
unspecified (spec section 4.1). -/
def colorizePercentageByThreshold (value : Option ℚ)
    (warningMax errorMin : Option ℚ) : Cell :=
  Cell.mk value (classify value (warningMax.getD 80) (errorMin.getD 50))

/-- Modelled from the spec: `colorizeBadgeByThreshold` from the missing
`./utils` module maps a value to a badge color; argument order at the call
sites in `main.ts` is (value, errorMin, warningMax); unspecified ceilings
default to warning = 80, error = 50. -/
def colorizeBadgeByThreshold (value : Option ℚ)
    (errorMin warningMax : Option ℚ) : String :=
  tierColor (classify value (warningMax.getD 80) (errorMin.getD 50))

/-- A failure signalled through `core.setFailed`, carrying the data the
failure message interpolates. -/
inductive Failure where
  | fileRegression (relative : String) (difference : ℚ)
  | overallBelowThreshold (coverage threshold : ℚ)
  | overallRegression (difference : ℚ)
deriving DecidableEq, Repr

/-- One row of the per-file table (the `map` built in `generateMarkdown`,
`main.ts` lines 88-132): two columns without a baseline, four with one. -/
inductive Row where
  | noBase (package : String) (coverage : Cell)
  | withBase (package : String) (base current difference : Cell)
deriving DecidableEq, Repr

/-- `main.ts` lines 100-102:
`baseCoverage.files[hash] ? baseCoverage.files[hash].coverage : null`.
The lookup of an absent key yields `undefined` (falsy); a present
`CoverageFile` object is always truthy. -/
def baseCoveragePercentageOf (baseCoverage : Coverage) (hash : String) :
    Option ℚ :=
  match baseCoverage.files.lookup hash with
  | some f => some f.coverage
  | none => none

/-- `main.ts` lines 104-106: `baseCoveragePercentage ?
roundPercentage(file.coverage - baseCoveragePercentage) : null`.
JavaScript truthiness on `number | null`: both `null` and `0` take the
`null` branch. -/
def differencePercentageOf (baseCoverage : Coverage) (hash : String)
    (file : CoverageFile) : Option ℚ :=
  match baseCoveragePercentageOf baseCoverage hash with
  | some b => if b ≠ 0 then some (roundPercentage (file.coverage - b)) else none
  | none => none

/-- The per-file `map` callback of `generateMarkdown` (`main.ts` lines
88-132): the table row for one head file, together with the optional
file-regression failure signalled on lines 108-116. -/
def fileRowAndFailure (inp : Inputs) (baseCoverage : Option Coverage)
    (hash : String) (file : CoverageFile) : Row × Option Failure :=
  match baseCoverage with
  | none =>
    (Row.noBase file.relative
      (colorizePercentageByThreshold (some file.coverage)
        (some inp.fileCoverageWarningMax) (some inp.fileCoverageErrorMin)),
     none)
  | some base =>
    let differencePercentage := differencePercentageOf base hash file
    let failure : Option Failure :=
      if inp.failOnNegativeDifference then
        match differencePercentage with
        | some d =>
          if d < 0 then some (Failure.fileRegression file.relative d) else none
        | none => none
      else none
    (Row.withBase file.relative
      (colorizePercentageByThreshold (baseCoveragePercentageOf base hash)
        (some inp.fileCoverageWarningMax) (some inp.fileCoverageErrorMin))
      (colorizePercentageByThreshold (some file.coverage)
        (some inp.fileCoverageWarningMax) (some inp.fileCoverageErrorMin))
      (colorizePercentageByThreshold differencePercentage none none),
     failure)

/-- A badge in the rendered report; the shields.io image URL
`![label](https://img.shields.io/badge/label-value%-color?...)` is abstracted
to its semantic content: label, displayed value and color. -/
structure Badge where
  label : String
  value : Option ℚ
  color : String
deriving DecidableEq, Repr

/-- `generateOverallCoverageReport` (`main.ts` lines 223-273): the overall
comparison table as its list of (row label, badge) rows; the cosmetic empty
header row passed to `markdownTable` is omitted.  `baseline ? ... : ...`
(line 230) is a JavaScript truthiness test on a `number | null`, so the
three-row layout is chosen only when the baseline is present and nonzero.
The Difference badge (line 256) is colored with unspecified (default)
ceilings while the Current and Baseline badges use the configured ones. -/
def generateOverallCoverageReport (current : ℚ) (baseline : Option ℚ)
    (difference : Option ℚ) (thresholdMin thresholdMax : ℚ) :
    List (String × Badge) :=
  let currentRow : String × Badge :=
    ("Current", Badge.mk "Current" (some current)
      (colorizeBadgeByThreshold (some current) (some thresholdMin)
        (some thresholdMax)))
  if jsTruthyNum baseline then
    [currentRow,
     ("Baseline", Badge.mk "Baseline" baseline
       (colorizeBadgeByThreshold baseline (some thresholdMin)
         (some thresholdMax))),
     ("Difference", Badge.mk "Difference" difference
       (colorizeBadgeByThreshold difference none none))]
  else
    [currentRow]

/-- The observable outcome of `generateMarkdown` (`main.ts` lines 72-196):
the report sections, the failures signalled through `core.setFailed`, the
markdown file written, and the two outputs set at the end.  The source sets
the outputs and writes the file unconditionally at the end of the function
(`core.setFailed` records failure without interrupting control flow). -/
structure MarkdownResult where
  badgeImage : Option Badge
  overallReport : Option (List (String × Badge))
  packageRows : Option (List Row)
  failures : List Failure
  writtenFilename : String
  outputFile : String
  outputCoverage : ℚ
deriving DecidableEq, Repr

/-- `generateMarkdown` (`main.ts` lines 72-196). -/
def generateMarkdown (inp : Inputs) (headCoverage : Coverage)
    (baseCoverage : Option Coverage) : MarkdownResult :=
  let mapped :=
    headCoverage.files.map fun p => fileRowAndFailure inp baseCoverage p.1 p.2
  let map := mapped.map Prod.fst
  let fileFailures := mapped.filterMap Prod.snd
  let thresholdFailures : List Failure :=
    if inp.overallCoverageFailThreshold > headCoverage.coverage then
      [Failure.overallBelowThreshold headCoverage.coverage
        inp.overallCoverageFailThreshold]
    else []
  let overallDifferencePercentage : Option ℚ :=
    match baseCoverage with
    | some base => some (roundPercentage (headCoverage.coverage - base.coverage))
    | none => none
  let overallFailures : List Failure :=
    if inp.failOnNegativeOverallDifference then
      match overallDifferencePercentage with
      | some d => if d < 0 then [Failure.overallRegression d] else []
      | none => []
    else []
  { badgeImage :=
      if inp.badge then
        some (Badge.mk "Code Coverage" (some headCoverage.coverage)
          (colorizeBadgeByThreshold (some headCoverage.coverage)
            (some inp.fileCoverageErrorMin) (some inp.fileCoverageWarningMax)))
      else none
    overallReport :=
      if inp.reportOverallCoverage then
        some (generateOverallCoverageReport headCoverage.coverage
          (baseCoverage.map Coverage.coverage) overallDifferencePercentage
          inp.fileCoverageErrorMin inp.fileCoverageWarningMax)
      else none
    packageRows := if inp.reportPackageCoverage then some map else none
    failures := fileFailures ++ thresholdFailures ++ overallFailures
    writtenFilename := inp.markdownFilename ++ ".md"
    outputFile := inp.markdownFilename ++ ".md"
    outputCoverage := headCoverage.coverage }

/-- The environment variables `run` reads. -/
structure Env where
  githubEventName : String
  githubBaseRef : String
  githubRefName : String
deriving DecidableEq, Repr

/-- Results of the external calls `run` makes, treated as opaque
collaborators: whether `checkFileExists(filename)` succeeds, whether
`downloadArtifacts` finds a baseline artifact, and what `parseCoverage`
returns on the base and head report files. -/
structure World where
  fileExists : Bool
  artifactFound : Bool
  baseParsed : Option Coverage
  headParsed : Option Coverage
deriving DecidableEq, Repr

/-- An observable action of one `run` (`main.ts` lines 17-70). -/
inductive Action where
  | setFailedAccess (filename : String)
  | setFailedProcess (filename : String)
  | warnMissingBaseline (baseRef filename : String)
  | report (result : MarkdownResult)
  | uploadArtifact (filename : String) (refName : String)
deriving DecidableEq, Repr

/-- `run` (`main.ts` lines 17-70): the sequence of observable actions of one
invocation, branching on `GITHUB_EVENT_NAME` after the file-existence
check. -/
def run (inp : Inputs) (env : Env) (w : World) : List Action :=
  if !w.fileExists then [Action.setFailedAccess inp.filename]
  else
    match env.githubEventName with
    | "pull_request" =>
      let baseCoverage : Option Coverage :=
        if w.artifactFound then w.baseParsed else none
      match w.headParsed with
      | none => [Action.setFailedProcess inp.filename]
      | some headCoverage =>
        match baseCoverage with
        | none =>
          [Action.warnMissingBaseline env.githubBaseRef inp.filename,
           Action.report (generateMarkdown inp headCoverage none)]
        | some base =>
          [Action.report (generateMarkdown inp headCoverage (some base))]
    | "push" => [Action.uploadArtifact inp.filename env.githubRefName]
    | "schedule" => [Action.uploadArtifact inp.filename env.githubRefName]
    | "workflow_dispatch" =>
      [Action.uploadArtifact inp.filename env.githubRefName]
    | _ => []

/-! Concrete sample data used to evaluate the definitions on closed
inputs. -/

/-- A configuration with both regression toggles on, per-file ceilings
warning = 80 and error = 50, and overall threshold 0. -/
def inpStd : Inputs :=
  ⟨"", "cov.xml", false, 0, 50, 80, true, "coverage-report", none,
   "coverage", true, true, true⟩

/-- `inpStd` with the absolute overall threshold raised to 50. -/
def inpThreshold50 : Inputs :=
  ⟨"", "cov.xml", false, 50, 50, 80, true, "coverage-report", none,
   "coverage", true, true, true⟩

/-- A head-side file at 50% coverage. -/
def fileHeadA : CoverageFile := ⟨"src/a.ts", "/repo/src/a.ts", 50⟩

/-- The same file at 60% coverage in the baseline. -/
def fileBaseA : CoverageFile := ⟨"src/a.ts", "/repo/src/a.ts", 60⟩

/-- The same file at exactly 0% coverage in the baseline. -/
def fileBaseZero : CoverageFile := ⟨"src/a.ts", "/repo/src/a.ts", 0⟩

/-- Head snapshot: one file at 50%, overall 70%. -/
def headSnap : Coverage := ⟨[("h1", fileHeadA)], 70, 0, "/repo"⟩

/-- Base snapshot: the same file at 60%, overall 75%. -/
def baseSnap : Coverage := ⟨[("h1", fileBaseA)], 75, 0, "/repo"⟩

/-- Base snapshot whose file has exactly 0% coverage. -/
def baseSnapZeroFile : Coverage := ⟨[("h1", fileBaseZero)], 75, 0, "/repo"⟩

/-- Base snapshot whose overall coverage is exactly 0%. -/
def baseSnapZeroOverall : Coverage := ⟨[("h1", fileBaseA)], 0, 0, "/repo"⟩

/-- Head snapshot with no files, overall 70%. -/
def headEmpty : Coverage := ⟨[], 70, 0, "/repo"⟩

/-- Base snapshot with overall 70.004% (= 17501/250), a hair above 70%. -/
def baseTinyAbove : Coverage := ⟨[], 17501/250, 0, "/repo"⟩

/-- Head snapshot with overall 40%. -/
def headLow : Coverage := ⟨[], 40, 0, "/repo"⟩

/-- Environment of a `push`-triggered run. -/
def envPush : Env := ⟨"push", "main", "topic-branch"⟩

/-- Environment of a run with an unhandled trigger kind. -/
def envOther : Env := ⟨"release", "main", "topic-branch"⟩

/-- External calls all succeed; no baseline artifact. -/
def worldReady : World := ⟨true, false, none, none⟩

/-- The coverage report file is missing. -/
def worldNoFile : World := ⟨false, false, none, none⟩

/-! Theorems. -/

/-- The per-file callback only ever signals a file-regression failure, and it
names the file's relative path. -/
theorem fileRowAndFailure_snd_shape (inp : Inputs) (bc : Option Coverage)
    (hash : String) (file : CoverageFile) (x : Failure)
    (hx : (fileRowAndFailure inp bc hash file).2 = some x) :
    ∃ d, x = Failure.fileRegression file.relative d := by
  rcases bc with _ | base
  · simp [fileRowAndFailure] at hx
  · simp only [fileRowAndFailure] at hx
    split at hx
    · split at hx
      · split at hx
        · exact ⟨_, by simpa using hx.symm⟩
        · simp at hx
      · simp at hx
    · simp at hx

/-- C1: with `failOnNegativeDifference` enabled and a baseline present, every
head file whose computed difference is negative signals a failure carrying
that file's relative path and the magnitude; the check is per-file, so it
holds for each such file independently, and the report file and both outputs
are still produced (fail-at-end, not abort). -/
theorem C1_file_regression_fail_at_end
    (inp : Inputs) (head base : Coverage) (hash : String)
    (file : CoverageFile) (d : ℚ)
    (htoggle : inp.failOnNegativeDifference = true)
    (hmem : (hash, file) ∈ head.files)
    (hdiff : differencePercentageOf base hash file = some d)
    (hneg : d < 0) :
    Failure.fileRegression file.relative d ∈
      (generateMarkdown inp head (some base)).failures
    ∧ (generateMarkdown inp head (some base)).writtenFilename =
        inp.markdownFilename ++ ".md"
    ∧ (generateMarkdown inp head (some base)).outputFile =
        inp.markdownFilename ++ ".md"
    ∧ (generateMarkdown inp head (some base)).outputCoverage = head.coverage := by
  refine ⟨?_, rfl, rfl, rfl⟩
  simp only [generateMarkdown, List.mem_append, List.mem_filterMap, List.mem_map]
  refine Or.inl (Or.inl ?_)
  exact ⟨fileRowAndFailure inp (some base) hash file, ⟨(hash, file), hmem, rfl⟩,
    by simp [fileRowAndFailure, htoggle, hdiff, hneg]⟩

/-- C1 witness: file at 50% against a 60% baseline, difference -10,
failure signalled while the report file and outputs are still produced. -/
theorem C1_file_regression_fail_at_end_witness :
    inpStd.failOnNegativeDifference = true
    ∧ ("h1", fileHeadA) ∈ headSnap.files
    ∧ differencePercentageOf baseSnap "h1" fileHeadA = some (-10)
    ∧ ((-10 : ℚ) < 0)
    ∧ (Failure.fileRegression fileHeadA.relative (-10) ∈
        (generateMarkdown inpStd headSnap (some baseSnap)).failures
      ∧ (generateMarkdown inpStd headSnap (some baseSnap)).writtenFilename =
          inpStd.markdownFilename ++ ".md"
      ∧ (generateMarkdown inpStd headSnap (some baseSnap)).outputFile =
          inpStd.markdownFilename ++ ".md"
      ∧ (generateMarkdown inpStd headSnap (some baseSnap)).outputCoverage =
          headSnap.coverage) :=
  ⟨rfl, by simp [headSnap],
   by norm_num [differencePercentageOf, baseCoveragePercentageOf, baseSnap,
     fileBaseA, fileHeadA, roundPercentage, roundHalfAwayFromZero, List.lookup],
   by norm_num,
   C1_file_regression_fail_at_end inpStd headSnap baseSnap "h1" fileHeadA (-10)
     rfl (by simp [headSnap])
     (by norm_num [differencePercentageOf, baseCoveragePercentageOf, baseSnap,
       fileBaseA, fileHeadA, roundPercentage, roundHalfAwayFromZero, List.lookup])
     (by norm_num)⟩

/-- C2 counterexample: toggle enabled, head overall 70%, base overall
70.004%: `headOverall - baseOverall < 0`, yet no failure is signalled,
because the code compares the 2-decimal-rounded difference (= 0) with 0. -/
theorem C2_rounding_counterexample :
    inpStd.failOnNegativeOverallDifference = true
    ∧ headEmpty.coverage - baseTinyAbove.coverage < 0
    ∧ (generateMarkdown inpStd headEmpty (some baseTinyAbove)).failures = [] := by
  refine ⟨rfl, by norm_num [headEmpty, baseTinyAbove], ?_⟩
  norm_num [generateMarkdown, inpStd, headEmpty, baseTinyAbove, roundPercentage,
    roundHalfAwayFromZero]

/-- C2 (amended): with `failOnNegativeOverallDifference` enabled and a
baseline present, a failure with the magnitude is signalled exactly when the
2-decimal-rounded difference `roundPercentage(headOverall - baseOverall)` is
negative. -/
theorem C2_overall_regression_rounded (inp : Inputs) (head base : Coverage)
    (h : inp.failOnNegativeOverallDifference = true) :
    Failure.overallRegression (roundPercentage (head.coverage - base.coverage)) ∈
      (generateMarkdown inp head (some base)).failures
    ↔ roundPercentage (head.coverage - base.coverage) < 0 := by
  constructor
  · intro hmem
    simp only [generateMarkdown, List.mem_append, List.mem_filterMap,
      List.mem_map] at hmem
    rcases hmem with (hfile | hthr) | hover
    · obtain ⟨a, hamem, haeq⟩ := hfile
      obtain ⟨p, hpmem, rfl⟩ := hamem
      obtain ⟨d, hd⟩ := fileRowAndFailure_snd_shape inp (some base) p.1 p.2 _ haeq
      simp at hd
    · split at hthr
      · simp at hthr
      · simp at hthr
    · rw [h] at hover
      by_cases hlt : roundPercentage (head.coverage - base.coverage) < 0
      · exact hlt
      · simp [hlt] at hover
  · intro hneg
    simp [generateMarkdown, List.mem_append, h, hneg]

/-- C2 witness: head overall 70%, base overall 75%: rounded difference -5 is
negative and the overall-regression failure is signalled. -/
theorem C2_overall_regression_rounded_witness :
    inpStd.failOnNegativeOverallDifference = true
    ∧ Failure.overallRegression
        (roundPercentage (headSnap.coverage - baseSnap.coverage)) ∈
        (generateMarkdown inpStd headSnap (some baseSnap)).failures :=
  ⟨rfl, (C2_overall_regression_rounded inpStd headSnap baseSnap rfl).mpr
     (by norm_num [headSnap, baseSnap, roundPercentage, roundHalfAwayFromZero])⟩

/-- C3: whenever the head overall percentage is below
`overallCoverageFailThreshold`, a failure is signalled, for any baseline
argument (present or absent). -/
theorem C3_overall_threshold (inp : Inputs) (head : Coverage)
    (base : Option Coverage)
    (h : head.coverage < inp.overallCoverageFailThreshold) :
    Failure.overallBelowThreshold head.coverage
      inp.overallCoverageFailThreshold ∈
      (generateMarkdown inp head base).failures := by
  simp [generateMarkdown, h]

/-- C3 witness: head overall 40% against threshold 50%, no baseline: the
threshold failure is signalled. -/
theorem C3_overall_threshold_witness :
    headLow.coverage < inpThreshold50.overallCoverageFailThreshold
    ∧ Failure.overallBelowThreshold headLow.coverage
        inpThreshold50.overallCoverageFailThreshold ∈
        (generateMarkdown inpThreshold50 headLow none).failures :=
  ⟨by norm_num [headLow, inpThreshold50],
   C3_overall_threshold inpThreshold50 headLow none
     (by norm_num [headLow, inpThreshold50])⟩

/-- C4 counterexample: at p = 60 with warning ceiling W = 50 and error
ceiling E = 80 (ceilings unconstrained, as the claim quantifies them), the
classifier returns Error, refuting "Ok iff p ≥ W". -/
theorem C4_boundary_counterexample :
    classify (some (60 : ℚ)) 50 80 = Tier.error
    ∧ ¬ ((classify (some (60 : ℚ)) 50 80 = Tier.ok) ↔ (50 : ℚ) ≤ 60) := by
  constructor
  · rfl
  · decide

/-- C4 (amended): for errorCeiling E ≤ warningCeiling W and any percentage p
in [0,100), the classifier returns Error iff p < E, Warning iff E ≤ p < W,
Ok iff p ≥ W (so p = E is Warning-or-better and p = W is Ok), and a null
value is always Neutral. -/
theorem C4_classifier_tiers (p W E : ℚ) (h0 : 0 ≤ p) (h1 : p < 100)
    (hWE : E ≤ W) :
    (classify (some p) W E = Tier.error ↔ p < E)
    ∧ (classify (some p) W E = Tier.warning ↔ E ≤ p ∧ p < W)
    ∧ (classify (some p) W E = Tier.ok ↔ W ≤ p)
    ∧ classify none W E = Tier.neutral := by
  refine ⟨?_, ?_, ?_, rfl⟩
  · simp only [classify]
    split_ifs with ha hb
    · simp [ha]
    · simp [ha]
    · simp [ha]
  · simp only [classify]
    split_ifs with ha hb
    · simp
      intro hEp
      linarith
    · simp
      exact ⟨by linarith, hb⟩
    · simp
      intro hEp
      linarith
  · simp only [classify]
    split_ifs with ha hb
    · simp
      linarith
    · simp
      exact hb
    · simp
      linarith

/-- C4 witness: p = 85 with W = 80, E = 50 evaluates the amended claim. -/
theorem C4_classifier_tiers_witness :
    ((0 : ℚ) ≤ 85) ∧ ((85 : ℚ) < 100) ∧ ((50 : ℚ) ≤ 80)
    ∧ ((classify (some (85 : ℚ)) 80 50 = Tier.error ↔ (85 : ℚ) < 50)
      ∧ (classify (some (85 : ℚ)) 80 50 = Tier.warning ↔
          (50 : ℚ) ≤ 85 ∧ (85 : ℚ) < 80)
      ∧ (classify (some (85 : ℚ)) 80 50 = Tier.ok ↔ (80 : ℚ) ≤ 85)
      ∧ classify none 80 50 = Tier.neutral) :=
  ⟨by norm_num, by norm_num, by norm_num,
   C4_classifier_tiers 85 80 50 (by norm_num) (by norm_num) (by norm_num)⟩

/-- C5 at the failing input: the identity key "h1" is present in the base
snapshot with coverage exactly 0, yet the computed difference is null (the
truthiness test on the numeric baseline value treats 0 like null), where the
claim's `round(headPct - basePct)` is 50; an absent key does yield a null
baseline and null difference. -/
theorem C5_zero_baseline_divergence :
    baseCoveragePercentageOf baseSnapZeroFile "h1" = some 0
    ∧ differencePercentageOf baseSnapZeroFile "h1" fileHeadA = none
    ∧ roundPercentage (fileHeadA.coverage - 0) = 50
    ∧ baseCoveragePercentageOf baseSnapZeroFile "zzz" = none
    ∧ differencePercentageOf baseSnapZeroFile "zzz" fileHeadA = none := by
  refine ⟨rfl, rfl, ?_, rfl, rfl⟩
  norm_num [fileHeadA, roundPercentage, roundHalfAwayFromZero]

/-- C6: when the report file exists, trigger kinds push, schedule and
workflow_dispatch upload the report tagged with the current ref name and do
nothing else (no report, no outputs, no failure); any trigger kind other than
the four handled ones is a successful no-op. -/
theorem C6_push_like_and_unhandled (inp : Inputs) (env : Env) (w : World)
    (hfile : w.fileExists = true) :
    ((env.githubEventName = "push" ∨ env.githubEventName = "schedule" ∨
        env.githubEventName = "workflow_dispatch") →
      run inp env w = [Action.uploadArtifact inp.filename env.githubRefName])
    ∧ (env.githubEventName ≠ "pull_request" → env.githubEventName ≠ "push" →
        env.githubEventName ≠ "schedule" →
        env.githubEventName ≠ "workflow_dispatch" → run inp env w = []) := by
  constructor
  · rintro (h | h | h) <;> simp [run, hfile, h]
  · intro h1 h2 h3 h4
    simp [run, hfile, h1, h2, h3, h4]

/-- C6 witness: a push run uploads the artifact tagged with the ref name; a
run with trigger kind "release" is a no-op. -/
theorem C6_push_like_and_unhandled_witness :
    worldReady.fileExists = true
    ∧ run inpStd envPush worldReady =
        [Action.uploadArtifact inpStd.filename envPush.githubRefName]
    ∧ run inpStd envOther worldReady = [] :=
  ⟨rfl,
   (C6_push_like_and_unhandled inpStd envPush worldReady rfl).1 (Or.inl rfl),
   (C6_push_like_and_unhandled inpStd envOther worldReady rfl).2
     (by decide) (by decide) (by decide) (by decide)⟩

/-- C7: when the coverage report file is inaccessible, the run's only action,
for every trigger kind, is the terminal failure naming the file: no report,
no artifact upload, no outputs. -/
theorem C7_missing_file_aborts (inp : Inputs) (env : Env) (w : World)
    (h : w.fileExists = false) :
    run inp env w = [Action.setFailedAccess inp.filename] := by
  simp [run, h]

/-- C7 witness: a push-triggered run with the report file missing fails
immediately naming the file. -/
theorem C7_missing_file_aborts_witness :
    worldNoFile.fileExists = false
    ∧ run inpStd envPush worldNoFile =
        [Action.setFailedAccess inpStd.filename] :=
  ⟨rfl, C7_missing_file_aborts inpStd envPush worldNoFile rfl⟩

/-- C8: in the overall-comparison block (with a truthy baseline), the
Difference badge is classified with the default ceilings 80/50, irrespective
of the configured per-file thresholds, while the Current and Baseline badges
are classified with the configured per-file warning/error ceilings. -/
theorem C8_difference_badge_default_thresholds (inp : Inputs)
    (head base : Coverage)
    (hreport : inp.reportOverallCoverage = true) (hb : base.coverage ≠ 0) :
    (generateMarkdown inp head (some base)).overallReport =
      some [("Current", Badge.mk "Current" (some head.coverage)
               (tierColor (classify (some head.coverage)
                 inp.fileCoverageWarningMax inp.fileCoverageErrorMin))),
            ("Baseline", Badge.mk "Baseline" (some base.coverage)
               (tierColor (classify (some base.coverage)
                 inp.fileCoverageWarningMax inp.fileCoverageErrorMin))),
            ("Difference", Badge.mk "Difference"
               (some (roundPercentage (head.coverage - base.coverage)))
               (tierColor (classify
                 (some (roundPercentage (head.coverage - base.coverage)))
                 80 50)))] := by
  simp [generateMarkdown, generateOverallCoverageReport,
    colorizeBadgeByThreshold, jsTruthyNum, hreport, hb]

/-- C8 witness: head overall 70%, base overall 75%, configured ceilings
warning 80 / error 50: the three badge rows with the stated ceilings. -/
theorem C8_difference_badge_default_thresholds_witness :
    inpStd.reportOverallCoverage = true
    ∧ baseSnap.coverage ≠ 0
    ∧ (generateMarkdown inpStd headSnap (some baseSnap)).overallReport =
      some [("Current", Badge.mk "Current" (some headSnap.coverage)
               (tierColor (classify (some headSnap.coverage)
                 inpStd.fileCoverageWarningMax inpStd.fileCoverageErrorMin))),
            ("Baseline", Badge.mk "Baseline" (some baseSnap.coverage)
               (tierColor (classify (some baseSnap.coverage)
                 inpStd.fileCoverageWarningMax inpStd.fileCoverageErrorMin))),
            ("Difference", Badge.mk "Difference"
               (some (roundPercentage (headSnap.coverage - baseSnap.coverage)))
               (tierColor (classify
                 (some (roundPercentage (headSnap.coverage - baseSnap.coverage)))
                 80 50)))] :=
  ⟨rfl, by norm_num [baseSnap],
   C8_difference_badge_default_thresholds inpStd headSnap baseSnap rfl
     (by norm_num [baseSnap])⟩

/-- C9: a file present in both snapshots whose base coverage is exactly 0
gets a null computed difference (0 is falsy in the truthiness test), its
Difference cell renders as the null/Neutral case, and the per-file regression
check signals nothing for it. -/
theorem C9_zero_base_no_regression_check (inp : Inputs) (base : Coverage)
    (hash : String) (file g : CoverageFile)
    (hlookup : base.files.lookup hash = some g) (hzero : g.coverage = 0) :
    differencePercentageOf base hash file = none
    ∧ (fileRowAndFailure inp (some base) hash file).2 = none
    ∧ (fileRowAndFailure inp (some base) hash file).1 =
        Row.withBase file.relative
          (Cell.mk (some 0)
            (classify (some 0) inp.fileCoverageWarningMax
              inp.fileCoverageErrorMin))
          (colorizePercentageByThreshold (some file.coverage)
            (some inp.fileCoverageWarningMax) (some inp.fileCoverageErrorMin))
          (Cell.mk none Tier.neutral) := by
  have hd : differencePercentageOf base hash file = none := by
    simp [differencePercentageOf, baseCoveragePercentageOf, hlookup, hzero]
  refine ⟨hd, ?_, ?_⟩
  · simp [fileRowAndFailure, hd]
  · simp [fileRowAndFailure, hd, colorizePercentageByThreshold, classify,
      baseCoveragePercentageOf, hlookup, hzero]

/-- C9 witness: head file at 50% whose baseline entry has coverage 0: null
difference, Neutral difference cell, no failure. -/
theorem C9_zero_base_no_regression_check_witness :
    baseSnapZeroFile.files.lookup "h1" = some fileBaseZero
    ∧ fileBaseZero.coverage = 0
    ∧ (differencePercentageOf baseSnapZeroFile "h1" fileHeadA = none
      ∧ (fileRowAndFailure inpStd (some baseSnapZeroFile) "h1" fileHeadA).2 =
          none
      ∧ (fileRowAndFailure inpStd (some baseSnapZeroFile) "h1" fileHeadA).1 =
          Row.withBase fileHeadA.relative
            (Cell.mk (some 0)
              (classify (some 0) inpStd.fileCoverageWarningMax
                inpStd.fileCoverageErrorMin))
            (colorizePercentageByThreshold (some fileHeadA.coverage)
              (some inpStd.fileCoverageWarningMax)
              (some inpStd.fileCoverageErrorMin))
            (Cell.mk none Tier.neutral)) :=
  ⟨rfl, rfl,
   C9_zero_base_no_regression_check inpStd baseSnapZeroFile "h1" fileHeadA
     fileBaseZero rfl rfl⟩

/-- C10: when the baseline snapshot's overall coverage is exactly 0, the
overall-comparison block equals the no-baseline layout (a single Current row,
no Baseline or Difference rows), even though a baseline was passed and an
overall difference was computed. -/
theorem C10_zero_overall_baseline_layout (inp : Inputs) (head base : Coverage)
    (hreport : inp.reportOverallCoverage = true) (hzero : base.coverage = 0) :
    (generateMarkdown inp head (some base)).overallReport =
      some (generateOverallCoverageReport head.coverage none
        (some (roundPercentage (head.coverage - base.coverage)))
        inp.fileCoverageErrorMin inp.fileCoverageWarningMax)
    ∧ generateOverallCoverageReport head.coverage none
        (some (roundPercentage (head.coverage - base.coverage)))
        inp.fileCoverageErrorMin inp.fileCoverageWarningMax =
      [("Current", Badge.mk "Current" (some head.coverage)
         (colorizeBadgeByThreshold (some head.coverage)
           (some inp.fileCoverageErrorMin)
           (some inp.fileCoverageWarningMax)))] := by
  constructor
  · simp [generateMarkdown, generateOverallCoverageReport, jsTruthyNum,
      hreport, hzero]
  · simp [generateOverallCoverageReport, jsTruthyNum]

/-- C10 witness: head overall 70% against a baseline with overall 0%: the
block renders as the single Current row. -/
theorem C10_zero_overall_baseline_layout_witness :
    inpStd.reportOverallCoverage = true
    ∧ baseSnapZeroOverall.coverage = 0
    ∧ ((generateMarkdown inpStd headSnap (some baseSnapZeroOverall)).overallReport =
        some (generateOverallCoverageReport headSnap.coverage none
          (some (roundPercentage
            (headSnap.coverage - baseSnapZeroOverall.coverage)))
          inpStd.fileCoverageErrorMin inpStd.fileCoverageWarningMax)
      ∧ generateOverallCoverageReport headSnap.coverage none
          (some (roundPercentage
            (headSnap.coverage - baseSnapZeroOverall.coverage)))
          inpStd.fileCoverageErrorMin inpStd.fileCoverageWarningMax =
        [("Current", Badge.mk "Current" (some headSnap.coverage)
           (colorizeBadgeByThreshold (some headSnap.coverage)
             (some inpStd.fileCoverageErrorMin)
             (some inpStd.fileCoverageWarningMax)))]) :=
  ⟨rfl, rfl,
   C10_zero_overall_baseline_layout inpStd headSnap baseSnapZeroOverall rfl rfl⟩

end CovAction
